import Mathlib

/-!
Verification of the amortization simulator `calculateLoanData` from
`src/App.tsx` of the loan-analysis dashboard.

Modelling choices:
* JavaScript numbers are modelled as exact rationals (`ℚ`); the claims and
  the specification state the arithmetic of the algorithm as exact real
  arithmetic, and every operation of the simulator (add, subtract, multiply,
  divide, compare) is a field operation, so `ℚ` is a faithful carrier for
  finite inputs.
* The one place where idealized field arithmetic and JavaScript semantics
  could diverge is the division `yearlyRentalIncome / rentalIncreasePerYear`
  on the zero-crossing branch (App.tsx line 104).  When
  `rentalIncreasePerYear = 0`, at that program point
  `yearlyRentalIncome = previousRental * 0 = 0`, so JavaScript computes
  `0 / 0 = NaN`; `NaN` then propagates to `monthlyReduction`, the comparison
  `monthlyReduction > 0` is false for `NaN`, and the code takes the
  `else` branch, setting `yearsToZero = year + 1`.  The embedding makes this
  case an explicit branch of `stepFn` (it cannot be left to the rational
  convention `x / 0 = 0`, which would wrongly let a negative interest rate
  reach the interpolation branch).
* The imperative `for` loop is embedded as a step function `stepFn` on an
  explicit loop state, iterated by `runLoop`.
-/

/-- Input record of `calculateLoanData` (interface `LoanGraph` in App.tsx).
The fields `id`, `name` and `color` are presentation data carried along with
the numeric parameters. -/
structure LoanGraph where
  id : String
  name : String
  loanAmount : ℚ
  monthlyRental : ℚ
  interestRate : ℚ
  rentalIncrease : ℚ
  color : String
deriving DecidableEq, Repr

/-- One entry of `yearlyBreakdown` (the object literal pushed at
App.tsx lines 84 to 90). -/
structure YearRecord where
  year : ℕ
  loanAmountStart : ℚ
  interest : ℚ
  rentalIncome : ℚ
  loanAmountEnd : ℚ
deriving DecidableEq, Repr

/-- The value returned by `calculateLoanData` (App.tsx line 117).
`yearsToZero` is `none` for the JavaScript `null`. -/
structure LoanData where
  years : List ℕ
  loanAmounts : List ℚ
  yearsToZero : Option ℚ
  yearlyBreakdown : List YearRecord
deriving DecidableEq, Repr

/-- The mutable state of the loop in `calculateLoanData`: the two loop-carried
numbers and the four accumulators (App.tsx lines 62 to 71). -/
structure LoopState where
  currentLoanAmount : ℚ
  yearlyRentalIncome : ℚ
  years : List ℕ
  loanAmounts : List ℚ
  yearlyBreakdown : List YearRecord
  yearsToZero : Option ℚ
deriving DecidableEq, Repr

/-- State just before the loop: `currentLoanAmount = graph.loanAmount`,
`yearlyRentalIncome = 12 * graph.monthlyRental`, initial values
`(0, loanAmount)` already pushed (App.tsx lines 62 to 75). -/
def initState (graph : LoanGraph) : LoopState :=
  { currentLoanAmount := graph.loanAmount
    yearlyRentalIncome := 12 * graph.monthlyRental
    years := [0]
    loanAmounts := [graph.loanAmount]
    yearlyBreakdown := []
    yearsToZero := none }

/-- One iteration of the loop body for loop counter `year`
(App.tsx lines 77 to 115), transcribed statement by statement:
interest accrual and balance update (lines 78 to 82), the breakdown push
with the pre-escalation rental (lines 84 to 90), the escalation
(line 92), the pushes onto `years` and `loanAmounts` (lines 94 to 95),
and the one-time zero-crossing computation (lines 98 to 114).
The crossing branch divides the already escalated rental back by
`rentalIncreasePerYear` (line 104); when `rentalIncreasePerYear = 0` that
division is `0 / 0 = NaN` in JavaScript, the comparison
`monthlyReduction > 0` is then false, and line 112 runs: this NaN path is
the explicit first branch below. -/
def stepFn (graph : LoanGraph) (year : ℕ) (s : LoopState) : LoopState :=
  let loanAmountStart := s.currentLoanAmount
  let annualInterest := s.currentLoanAmount * graph.interestRate
  let previousAmount := s.currentLoanAmount
  let newLoanAmount := s.currentLoanAmount + annualInterest - s.yearlyRentalIncome
  let newBreakdown := s.yearlyBreakdown ++
    [{ year := year + 1
       loanAmountStart := loanAmountStart
       interest := annualInterest
       rentalIncome := s.yearlyRentalIncome
       loanAmountEnd := newLoanAmount }]
  let newRentalIncome := s.yearlyRentalIncome * graph.rentalIncrease
  let newYears := s.years ++ [year + 1]
  let newLoanAmounts := s.loanAmounts ++ [newLoanAmount]
  let newYearsToZero :=
    if 0 < previousAmount ∧ newLoanAmount ≤ 0 ∧ s.yearsToZero = none then
      if graph.rentalIncrease = 0 then
        some ((year : ℚ) + 1)
      else
        let monthlyRental := newRentalIncome / graph.rentalIncrease / 12
        let monthlyInterest := previousAmount * graph.interestRate / 12
        let monthlyReduction := monthlyRental - monthlyInterest
        if 0 < monthlyReduction then
          let monthsToZero := previousAmount / monthlyReduction
          some ((year : ℚ) + monthsToZero / 12)
        else
          some ((year : ℚ) + 1)
    else s.yearsToZero
  { currentLoanAmount := newLoanAmount
    yearlyRentalIncome := newRentalIncome
    years := newYears
    loanAmounts := newLoanAmounts
    yearlyBreakdown := newBreakdown
    yearsToZero := newYearsToZero }

/-- The loop `for (let year = 0; year < numYears; year++)` run for `n`
iterations, starting from `initState`. -/
def runLoop (graph : LoanGraph) : ℕ → LoopState
  | 0 => initState graph
  | n + 1 => stepFn graph n (runLoop graph n)

/-- `calculateLoanData` (App.tsx lines 61 to 118): run the loop for
`maxYears` iterations and return the accumulators. -/
def calculateLoanData (graph : LoanGraph) (maxYears : ℕ) : LoanData :=
  let s := runLoop graph maxYears
  { years := s.years
    loanAmounts := s.loanAmounts
    yearsToZero := s.yearsToZero
    yearlyBreakdown := s.yearlyBreakdown }

/-- Closed form of the rental income in force during year `k + 1`
(0-based `k`): the initial annual rental escalated `k` times. -/
def rent (graph : LoanGraph) (k : ℕ) : ℚ :=
  12 * graph.monthlyRental * graph.rentalIncrease ^ k

/-- Closed form of the loan balance at the end of year `k` (`bal graph 0`
is the initial principal): the per-year recurrence of the loop. -/
def bal (graph : LoanGraph) : ℕ → ℚ
  | 0 => graph.loanAmount
  | k + 1 => bal graph k + bal graph k * graph.interestRate - rent graph k

/-- Closed form of the breakdown record for year `k + 1` (0-based `k`). -/
def yearRec (graph : LoanGraph) (k : ℕ) : YearRecord :=
  { year := k + 1
    loanAmountStart := bal graph k
    interest := bal graph k * graph.interestRate
    rentalIncome := rent graph k
    loanAmountEnd := bal graph (k + 1) }

/-- The zero-crossing test of iteration `k` (App.tsx lines 98 to 101):
the balance was positive at the start of year `k + 1` and nonpositive at
its end. -/
def crossAt (graph : LoanGraph) (k : ℕ) : Bool :=
  decide (0 < bal graph k ∧ bal graph (k + 1) ≤ 0)

/-- The value assigned to `yearsToZero` when the crossing fires at loop
counter `k` (App.tsx lines 103 to 113), including the NaN path for
`rentalIncrease = 0`. -/
def payoffAt (graph : LoanGraph) (k : ℕ) : ℚ :=
  if graph.rentalIncrease = 0 then (k : ℚ) + 1
  else
    let monthlyRental := rent graph k * graph.rentalIncrease / graph.rentalIncrease / 12
    let monthlyInterest := bal graph k * graph.interestRate / 12
    let monthlyReduction := monthlyRental - monthlyInterest
    if 0 < monthlyReduction then (k : ℚ) + (bal graph k / monthlyReduction) / 12
    else (k : ℚ) + 1

/-- The first loop counter at which the crossing fires within `n`
iterations, if any. -/
def crossingIndex (graph : LoanGraph) (n : ℕ) : Option ℕ :=
  (List.range n).find? (crossAt graph)

theorem runLoop_core (graph : LoanGraph) (n : ℕ) :
    (runLoop graph n).currentLoanAmount = bal graph n ∧
      (runLoop graph n).yearlyRentalIncome = rent graph n := by
  induction n with
  | zero => simp [runLoop, initState, bal, rent]
  | succ n ih =>
    refine ⟨?_, ?_⟩
    · simp [runLoop, stepFn, ih.1, ih.2, bal]
    · simp [runLoop, stepFn, ih.2, rent, pow_succ]
      ring

theorem runLoop_years (graph : LoanGraph) (n : ℕ) :
    (runLoop graph n).years = List.range (n + 1) := by
  induction n with
  | zero => simp [runLoop, initState, List.range_succ]
  | succ n ih =>
    simp only [runLoop, stepFn]
    rw [ih, List.range_succ (n + 1)]

theorem runLoop_loanAmounts (graph : LoanGraph) (n : ℕ) :
    (runLoop graph n).loanAmounts = (List.range (n + 1)).map (bal graph) := by
  induction n with
  | zero => simp [runLoop, initState, List.range_succ, bal]
  | succ n ih =>
    simp only [runLoop, stepFn]
    rw [ih, List.range_succ (n + 1), List.map_append,
      (runLoop_core graph n).1, (runLoop_core graph n).2]
    simp [bal]

theorem runLoop_breakdown (graph : LoanGraph) (n : ℕ) :
    (runLoop graph n).yearlyBreakdown = (List.range n).map (yearRec graph) := by
  induction n with
  | zero => simp [runLoop, initState]
  | succ n ih =>
    simp only [runLoop, stepFn]
    rw [ih, List.range_succ n, List.map_append,
      (runLoop_core graph n).1, (runLoop_core graph n).2]
    simp [yearRec, bal]

theorem runLoop_yearsToZero (graph : LoanGraph) (n : ℕ) :
    (runLoop graph n).yearsToZero = (crossingIndex graph n).map (payoffAt graph) := by
  induction n with
  | zero => simp [runLoop, initState, crossingIndex]
  | succ n ih =>
    have hb : bal graph n + bal graph n * graph.interestRate - rent graph n
        = bal graph (n + 1) := rfl
    simp only [runLoop, stepFn]
    rw [ih]
    rw [(runLoop_core graph n).1, (runLoop_core graph n).2]
    unfold crossingIndex
    rw [List.range_succ n, List.find?_append]
    cases hfind : (List.range n).find? (crossAt graph) with
    | some j => simp
    | none =>
      by_cases hc : 0 < bal graph n ∧ bal graph (n + 1) ≤ 0
      · have hct : crossAt graph n = true := by
          unfold crossAt
          exact decide_eq_true hc
        rw [if_pos ⟨hc.1, hb ▸ hc.2, rfl⟩]
        rw [List.find?_cons_of_pos _ hct]
        simp only [Option.none_or, Option.map_some']
        unfold payoffAt
        by_cases hr : graph.rentalIncrease = 0
        · rw [if_pos hr, if_pos hr]
        · rw [if_neg hr, if_neg hr]
          dsimp only
          split_ifs with h <;> rfl
      · have hcf : ¬ (crossAt graph n = true) := by
          unfold crossAt
          simpa using hc
        rw [if_neg (fun h => hc ⟨h.1, hb ▸ h.2.1⟩)]
        rw [List.find?_cons_of_neg _ hcf]
        simp

theorem calculateLoanData_def (graph : LoanGraph) (n : ℕ) :
    calculateLoanData graph n =
      { years := List.range (n + 1)
        loanAmounts := (List.range (n + 1)).map (bal graph)
        yearsToZero := (crossingIndex graph n).map (payoffAt graph)
        yearlyBreakdown := (List.range n).map (yearRec graph) } := by
  simp only [calculateLoanData]
  rw [runLoop_years, runLoop_loanAmounts, runLoop_breakdown, runLoop_yearsToZero]

theorem payoffAt_bounds (graph : LoanGraph) (k : ℕ)
    (h1 : 0 < bal graph k) (h2 : bal graph (k + 1) ≤ 0) :
    (k : ℚ) < payoffAt graph k ∧ payoffAt graph k ≤ (k : ℚ) + 1 := by
  have h2q : bal graph k + bal graph k * graph.interestRate - rent graph k ≤ 0 := h2
  unfold payoffAt
  by_cases hr : graph.rentalIncrease = 0
  · rw [if_pos hr]
    constructor <;> linarith
  · rw [if_neg hr]
    dsimp only
    rw [mul_div_cancel_right₀ _ hr]
    by_cases hm : 0 < rent graph k / 12 - bal graph k * graph.interestRate / 12
    · rw [if_pos hm]
      have hle : bal graph k / (rent graph k / 12 - bal graph k * graph.interestRate / 12) ≤ 12 := by
        rw [div_le_iff₀ hm]
        linarith
      have hpos : 0 < bal graph k / (rent graph k / 12 - bal graph k * graph.interestRate / 12) :=
        div_pos h1 hm
      constructor <;> linarith
    · rw [if_neg hm]
      constructor <;> linarith

theorem crossingIndex_isSome (graph : LoanGraph) (n : ℕ) :
    (crossingIndex graph n).isSome ↔
      ∃ k, k < n ∧ 0 < bal graph k ∧ bal graph (k + 1) ≤ 0 := by
  unfold crossingIndex
  rw [List.find?_isSome]
  constructor
  · rintro ⟨x, hx, hp⟩
    exact ⟨x, List.mem_range.mp hx, of_decide_eq_true hp⟩
  · rintro ⟨k, hk, hcross⟩
    exact ⟨k, List.mem_range.mpr hk, decide_eq_true hcross⟩

theorem crossingIndex_eq_some (graph : LoanGraph) (n j : ℕ) (hj : j < n)
    (hcj : 0 < bal graph j ∧ bal graph (j + 1) ≤ 0)
    (hmin : ∀ i, i < j → ¬ (0 < bal graph i ∧ bal graph (i + 1) ≤ 0)) :
    crossingIndex graph n = some j := by
  induction n with
  | zero => omega
  | succ n ih =>
    unfold crossingIndex
    rw [List.range_succ, List.find?_append]
    rcases Nat.lt_or_ge j n with h | h
    · have := ih h
      unfold crossingIndex at this
      rw [this]
      rfl
    · have hjn : j = n := by omega
      subst hjn
      have hnone : (List.range j).find? (crossAt graph) = none := by
        rw [List.find?_eq_none]
        intro x hx hpx
        exact hmin x (List.mem_range.mp hx) (of_decide_eq_true hpx)
      have hct : crossAt graph j = true := decide_eq_true hcj
      rw [hnone, List.find?_cons_of_pos _ hct]
      rfl

theorem calculateLoanData_years (graph : LoanGraph) (n : ℕ) :
    (calculateLoanData graph n).years = List.range (n + 1) :=
  runLoop_years graph n

theorem calculateLoanData_loanAmounts (graph : LoanGraph) (n : ℕ) :
    (calculateLoanData graph n).loanAmounts = (List.range (n + 1)).map (bal graph) :=
  runLoop_loanAmounts graph n

theorem calculateLoanData_breakdown (graph : LoanGraph) (n : ℕ) :
    (calculateLoanData graph n).yearlyBreakdown = (List.range n).map (yearRec graph) :=
  runLoop_breakdown graph n

theorem calculateLoanData_yearsToZero (graph : LoanGraph) (n : ℕ) :
    (calculateLoanData graph n).yearsToZero = (crossingIndex graph n).map (payoffAt graph) :=
  runLoop_yearsToZero graph n

/-- Claim C1: for every scenario and every horizon, each year y from 1 to the
horizon has its breakdown record satisfying the per-year fold recurrence:
interest accrued equals balanceStart times interestRate, rental applied
equals 12 * monthlyRental * rentalIncrease^(y-1), and
balanceEnd = balanceStart + interestAccrued - rentalApplied. -/
theorem claim1_year_recurrence (graph : LoanGraph) (n y : ℕ)
    (h1 : 1 ≤ y) (h2 : y ≤ n) :
    (calculateLoanData graph n).yearlyBreakdown[y - 1]? = some (yearRec graph (y - 1)) ∧
    (yearRec graph (y - 1)).interest
      = (yearRec graph (y - 1)).loanAmountStart * graph.interestRate ∧
    (yearRec graph (y - 1)).rentalIncome
      = 12 * graph.monthlyRental * graph.rentalIncrease ^ (y - 1) ∧
    (yearRec graph (y - 1)).loanAmountEnd
      = (yearRec graph (y - 1)).loanAmountStart + (yearRec graph (y - 1)).interest
        - (yearRec graph (y - 1)).rentalIncome := by
  refine ⟨?_, rfl, rfl, rfl⟩
  rw [calculateLoanData_breakdown]
  simp only [List.getElem?_map]
  rw [List.getElem?_range (by omega : y - 1 < n)]
  rfl

def gclaim1 : LoanGraph :=
  { id := "1", name := "Scenario 1", loanAmount := 1600000, monthlyRental := 16000
    interestRate := 1/10, rentalIncrease := 53/50, color := "rgb(255, 99, 132)" }

theorem claim1_witness :
    (calculateLoanData gclaim1 1).yearlyBreakdown[1 - 1]? = some (yearRec gclaim1 (1 - 1)) ∧
    (yearRec gclaim1 (1 - 1)).interest
      = (yearRec gclaim1 (1 - 1)).loanAmountStart * gclaim1.interestRate ∧
    (yearRec gclaim1 (1 - 1)).rentalIncome
      = 12 * gclaim1.monthlyRental * gclaim1.rentalIncrease ^ (1 - 1) ∧
    (yearRec gclaim1 (1 - 1)).loanAmountEnd
      = (yearRec gclaim1 (1 - 1)).loanAmountStart + (yearRec gclaim1 (1 - 1)).interest
        - (yearRec gclaim1 (1 - 1)).rentalIncome :=
  claim1_year_recurrence gclaim1 1 1 (by decide) (by decide)

/-- Claim C2: the payoff point is present exactly when some balance index
k ≥ 1 within the horizon has balances[k] ≤ 0 and balances[k-1] > 0, and for
the smallest such k the recorded value is the crossing value of that k and
lies in the half-open interval (k-1, k]; only the first crossing counts. -/
theorem claim2_payoff_first_crossing (graph : LoanGraph) (n : ℕ) :
    ((calculateLoanData graph n).yearsToZero.isSome ↔
      ∃ k, 1 ≤ k ∧ k ≤ n ∧ 0 < bal graph (k - 1) ∧ bal graph k ≤ 0) ∧
    (∀ k, 1 ≤ k → k ≤ n → 0 < bal graph (k - 1) → bal graph k ≤ 0 →
      (∀ j, 1 ≤ j → j < k → ¬ (0 < bal graph (j - 1) ∧ bal graph j ≤ 0)) →
      (calculateLoanData graph n).yearsToZero = some (payoffAt graph (k - 1)) ∧
        (k : ℚ) - 1 < payoffAt graph (k - 1) ∧ payoffAt graph (k - 1) ≤ (k : ℚ)) := by
  constructor
  · rw [calculateLoanData_yearsToZero]
    rw [Option.isSome_map']
    rw [crossingIndex_isSome]
    constructor
    · rintro ⟨k, hk, hpos, hend⟩
      exact ⟨k + 1, by omega, by omega, by simpa using hpos, by simpa using hend⟩
    · rintro ⟨k, hk1, hkn, hpos, hend⟩
      refine ⟨k - 1, by omega, hpos, ?_⟩
      have he : k - 1 + 1 = k := by omega
      rw [he]
      exact hend
  · intro k hk1 hkn hpos hend hmin
    have hsucc : k - 1 + 1 = k := by omega
    have hidx : crossingIndex graph n = some (k - 1) := by
      apply crossingIndex_eq_some graph n (k - 1) (by omega)
      · exact ⟨hpos, by rw [hsucc]; exact hend⟩
      · intro i hi hcon
        exact hmin (i + 1) (by omega) (by omega) ⟨by simpa using hcon.1, hcon.2⟩
    have hb := payoffAt_bounds graph (k - 1) hpos (by rw [hsucc]; exact hend)
    have hcast : ((k - 1 : ℕ) : ℚ) = (k : ℚ) - 1 := by
      rw [Nat.cast_sub hk1]
      norm_num
    refine ⟨?_, ?_, ?_⟩
    · rw [calculateLoanData_yearsToZero, hidx]
      rfl
    · rw [← hcast]
      exact hb.1
    · have h2 := hb.2
      rw [hcast] at h2
      linarith

def gclaim2 : LoanGraph :=
  { id := "2", name := "Scenario 2", loanAmount := 100, monthlyRental := 100
    interestRate := 0, rentalIncrease := 1, color := "rgb(54, 162, 235)" }

theorem claim2_witness :
    (calculateLoanData gclaim2 1).yearsToZero = some (payoffAt gclaim2 (1 - 1)) ∧
    ((1 : ℕ) : ℚ) - 1 < payoffAt gclaim2 (1 - 1) ∧ payoffAt gclaim2 (1 - 1) ≤ ((1 : ℕ) : ℚ) :=
  (claim2_payoff_first_crossing gclaim2 1).2 1 (by decide) (by decide)
    (by norm_num [bal, gclaim2]) (by norm_num [bal, rent, gclaim2])
    (fun j hj1 hjk => absurd (Nat.lt_of_lt_of_le hjk hj1) (Nat.lt_irrefl j))

def gclaim3 : LoanGraph :=
  { id := "3", name := "Scenario 3", loanAmount := 100, monthlyRental := 100
    interestRate := 0, rentalIncrease := 0, color := "rgb(75, 192, 192)" }

/-- Claim C3 is false as stated for rentalIncrease = 0: for the input
loanAmount = 100, monthlyRental = 100, interestRate = 0, rentalIncrease = 0,
the first crossing is in year 1, the monthly net reduction computed from the
pre-escalation annual rental (1200 / 12 - 0 = 100) is positive, so the claim
requires payoffPoint = 0 + (100 / 100) / 12 = 1/12; the code instead divides
the escalated rental (0) by rentalIncrease (0), obtaining NaN, fails the
comparison, and records payoffPoint = 1. -/
theorem claim3_counterexample :
    gclaim3.rentalIncrease = 0 ∧
    crossingIndex gclaim3 1 = some 0 ∧
    0 < rent gclaim3 0 / 12 - bal gclaim3 0 * gclaim3.interestRate / 12 ∧
    (calculateLoanData gclaim3 1).yearsToZero = some 1 ∧
    ((0 : ℚ) + (bal gclaim3 0
      / (rent gclaim3 0 / 12 - bal gclaim3 0 * gclaim3.interestRate / 12)) / 12) ≠ 1 := by
  have h0 : crossAt gclaim3 0 = true :=
    decide_eq_true (by constructor <;> norm_num [bal, rent, gclaim3])
  refine ⟨rfl, ?_, ?_, ?_, ?_⟩
  · unfold crossingIndex
    rw [show List.range 1 = [0] from rfl, List.find?_cons_of_pos _ h0]
  · norm_num [bal, rent, gclaim3]
  · norm_num [calculateLoanData, runLoop, stepFn, initState, gclaim3]
  · norm_num [bal, rent, gclaim3]

/-- Claim C3, amended: provided rentalIncrease is nonzero, when the first
zero crossing occurs at 0-based index k (year y = k + 1), the monthly rental
used is the pre-escalation annual rental of that year divided by 12, and with
monthlyNetReduction = rent/12 - balanceStart * interestRate / 12 the recorded
payoff point is (y - 1) + (balanceStart / monthlyNetReduction) / 12 when
monthlyNetReduction > 0, and y otherwise.  (The original claim also demanded
this for rentalIncrease = 0, which fails: see the counterexample.) -/
theorem claim3_interpolation (graph : LoanGraph) (n k : ℕ)
    (hr : graph.rentalIncrease ≠ 0)
    (hcross : crossingIndex graph n = some k) :
    (calculateLoanData graph n).yearsToZero =
      some (if 0 < rent graph k / 12 - bal graph k * graph.interestRate / 12
        then (k : ℚ) + (bal graph k
          / (rent graph k / 12 - bal graph k * graph.interestRate / 12)) / 12
        else (k : ℚ) + 1) := by
  rw [calculateLoanData_yearsToZero, hcross, Option.map_some']
  unfold payoffAt
  rw [if_neg hr]
  dsimp only
  rw [mul_div_cancel_right₀ _ hr]

def gclaim3w : LoanGraph :=
  { id := "3w", name := "Scenario 3w", loanAmount := 100, monthlyRental := 100
    interestRate := 0, rentalIncrease := 1, color := "rgb(255, 205, 86)" }

theorem claim3_witness :
    (calculateLoanData gclaim3w 1).yearsToZero =
      some (if 0 < rent gclaim3w 0 / 12 - bal gclaim3w 0 * gclaim3w.interestRate / 12
        then ((0 : ℕ) : ℚ) + (bal gclaim3w 0
          / (rent gclaim3w 0 / 12 - bal gclaim3w 0 * gclaim3w.interestRate / 12)) / 12
        else ((0 : ℕ) : ℚ) + 1) :=
  claim3_interpolation gclaim3w 1 0 (by norm_num [gclaim3w])
    (by
      have h0 : crossAt gclaim3w 0 = true :=
        decide_eq_true (by constructor <;> norm_num [bal, rent, gclaim3w])
      unfold crossingIndex
      rw [show List.range 1 = [0] from rfl, List.find?_cons_of_pos _ h0])

/-- Claim C4: the yearly breakdown chains exactly with the balances sequence:
record i has balanceStart equal to balances[i] and balanceEnd equal to
balances[i+1]. -/
theorem claim4_chaining (graph : LoanGraph) (n i : ℕ) (h : i < n) :
    (calculateLoanData graph n).yearlyBreakdown[i]? = some (yearRec graph i) ∧
    (calculateLoanData graph n).loanAmounts[i]? = some ((yearRec graph i).loanAmountStart) ∧
    (calculateLoanData graph n).loanAmounts[i + 1]? = some ((yearRec graph i).loanAmountEnd) := by
  refine ⟨?_, ?_, ?_⟩
  · rw [calculateLoanData_breakdown]
    simp only [List.getElem?_map]
    rw [List.getElem?_range h]
    rfl
  · rw [calculateLoanData_loanAmounts]
    simp only [List.getElem?_map]
    rw [List.getElem?_range (by omega : i < n + 1)]
    rfl
  · rw [calculateLoanData_loanAmounts]
    simp only [List.getElem?_map]
    rw [List.getElem?_range (by omega : i + 1 < n + 1)]
    rfl

def gclaim4 : LoanGraph :=
  { id := "4", name := "Scenario 4", loanAmount := 500, monthlyRental := 10
    interestRate := 1/20, rentalIncrease := 21/20, color := "rgb(153, 102, 255)" }

theorem claim4_witness :
    (calculateLoanData gclaim4 1).yearlyBreakdown[0]? = some (yearRec gclaim4 0) ∧
    (calculateLoanData gclaim4 1).loanAmounts[0]? = some ((yearRec gclaim4 0).loanAmountStart) ∧
    (calculateLoanData gclaim4 1).loanAmounts[0 + 1]? = some ((yearRec gclaim4 0).loanAmountEnd) :=
  claim4_chaining gclaim4 1 0 (by decide)

/-- Claim C5: for every horizon n the output years are exactly the ordered
sequence 0..n (length n + 1), the balances list has the same length and
starts with the loan amount, the breakdown has length n, and the balance
trajectory follows the unclamped recurrence over the whole horizon. -/
theorem claim5_trajectory_shape (graph : LoanGraph) (n : ℕ) :
    (calculateLoanData graph n).years = List.range (n + 1) ∧
    (calculateLoanData graph n).years.length = n + 1 ∧
    (calculateLoanData graph n).loanAmounts.length = n + 1 ∧
    (calculateLoanData graph n).loanAmounts[0]? = some graph.loanAmount ∧
    (calculateLoanData graph n).yearlyBreakdown.length = n ∧
    (calculateLoanData graph n).loanAmounts = (List.range (n + 1)).map (bal graph) := by
  refine ⟨calculateLoanData_years graph n, ?_, ?_, ?_, ?_,
    calculateLoanData_loanAmounts graph n⟩
  · rw [calculateLoanData_years, List.length_range]
  · rw [calculateLoanData_loanAmounts, List.length_map, List.length_range]
  · rw [calculateLoanData_loanAmounts]
    simp only [List.getElem?_map]
    rw [List.getElem?_range (Nat.succ_pos n)]
    rfl
  · rw [calculateLoanData_breakdown, List.length_map, List.length_range]

def gclaim6 : LoanGraph :=
  { id := "6", name := "Scenario 6", loanAmount := 0, monthlyRental := -100
    interestRate := 0, rentalIncrease := -1, color := "rgb(255, 159, 64)" }

/-- Claim C6 is false as stated (for all values of the other parameters):
with loanAmount = 0 (which is ≤ 0), monthlyRental = -100, interestRate = 0
and rentalIncrease = -1, the negative rental pushes the balance up to 1200
after year 1 and the sign-flipped rental brings it back to 0 after year 2,
so the crossing condition fires in year 2 and a payoff point (2) is
recorded. -/
theorem claim6_counterexample :
    gclaim6.loanAmount ≤ 0 ∧ (calculateLoanData gclaim6 2).yearsToZero = some 2 := by
  constructor
  · norm_num [gclaim6]
  · norm_num [calculateLoanData, runLoop, stepFn, initState, gclaim6]

/-- Claim C6, amended: if the initial loan amount is nonpositive and in
addition the rental stream is nonnegative (monthlyRental ≥ 0 and
rentalIncrease ≥ 0) and interestRate ≥ -1, then the balance stays
nonpositive forever, the crossing condition never fires, and no payoff
point is recorded for any horizon.  (The unrestricted claim fails: see the
counterexample.) -/
theorem claim6_no_payoff (graph : LoanGraph) (n : ℕ)
    (hL : graph.loanAmount ≤ 0) (hm : 0 ≤ graph.monthlyRental)
    (hr : 0 ≤ graph.rentalIncrease) (hi : -1 ≤ graph.interestRate) :
    (calculateLoanData graph n).yearsToZero = none := by
  have hbal : ∀ k, bal graph k ≤ 0 := by
    intro k
    induction k with
    | zero => exact hL
    | succ k ih =>
      have hrent : 0 ≤ rent graph k :=
        mul_nonneg (mul_nonneg (by norm_num) hm) (pow_nonneg hr k)
      have hfac : (0 : ℚ) ≤ 1 + graph.interestRate := by linarith
      have hmul := mul_nonneg (neg_nonneg.mpr ih) hfac
      show bal graph k + bal graph k * graph.interestRate - rent graph k ≤ 0
      nlinarith [hmul]
  rw [calculateLoanData_yearsToZero]
  have hnone : crossingIndex graph n = none := by
    unfold crossingIndex
    rw [List.find?_eq_none]
    intro x hx hpx
    exact absurd (of_decide_eq_true hpx).1 (not_lt.mpr (hbal x))
  rw [hnone]
  rfl

def gclaim6w : LoanGraph :=
  { id := "6w", name := "Scenario 6w", loanAmount := -5, monthlyRental := 0
    interestRate := 0, rentalIncrease := 1, color := "rgb(255, 99, 132)" }

theorem claim6_witness : (calculateLoanData gclaim6w 3).yearsToZero = none :=
  claim6_no_payoff gclaim6w 3 (by norm_num [gclaim6w]) (by norm_num [gclaim6w])
    (by norm_num [gclaim6w]) (by norm_num [gclaim6w])

def gclaim7 : LoanGraph :=
  { id := "7", name := "Scenario 7", loanAmount := 1600000, monthlyRental := 16000
    interestRate := 1/10, rentalIncrease := 53/50, color := "rgb(255, 99, 132)" }

/-- Claim C7: for loanAmount = 1600000, monthlyRental = 16000,
interestRate = 0.10, rentalIncrease = 1.06, horizon 20, the year-1 record is
(balanceStart 1600000, interest 160000, rental 192000, balanceEnd 1568000)
and a payoff point is present within the 20-year horizon (the first crossing
is in year 11 and the recorded value is about 10.94). -/
theorem claim7_concrete_scenario :
    (calculateLoanData gclaim7 20).yearlyBreakdown[0]? =
      some { year := 1, loanAmountStart := 1600000, interest := 160000
             rentalIncome := 192000, loanAmountEnd := 1568000 } ∧
    (calculateLoanData gclaim7 20).yearsToZero ≠ none ∧
    (calculateLoanData gclaim7 20).yearsToZero.getD 21 ≤ 20 := by
  have hidx : crossingIndex gclaim7 20 = some 10 := by
    apply crossingIndex_eq_some gclaim7 20 10 (by norm_num)
    · constructor <;> norm_num [bal, rent, gclaim7]
    · intro i hi
      interval_cases i <;> norm_num [bal, rent, gclaim7]
  have hz : (calculateLoanData gclaim7 20).yearsToZero = some (payoffAt gclaim7 10) := by
    rw [calculateLoanData_yearsToZero, hidx]
    rfl
  refine ⟨?_, ?_, ?_⟩
  · rw [calculateLoanData_breakdown]
    simp only [List.getElem?_map]
    rw [List.getElem?_range (by norm_num : (0 : ℕ) < 20)]
    norm_num [yearRec, bal, rent, gclaim7]
  · rw [hz]
    simp
  · rw [hz]
    norm_num [payoffAt, bal, rent, gclaim7]

/-- Claim C8: with interestRate = 0 every year record satisfies
balanceEnd = balanceStart - rentalApplied exactly; and with
rentalIncrease = 1 the rental applied is the same value
(12 * monthlyRental) in every year record. -/
theorem claim8_zero_interest_flat_rental (graph : LoanGraph) (n : ℕ) :
    (graph.interestRate = 0 → ∀ i, i < n →
      (calculateLoanData graph n).yearlyBreakdown[i]? = some (yearRec graph i) ∧
      (yearRec graph i).loanAmountEnd
        = (yearRec graph i).loanAmountStart - (yearRec graph i).rentalIncome) ∧
    (graph.rentalIncrease = 1 → ∀ i, i < n →
      (calculateLoanData graph n).yearlyBreakdown[i]? = some (yearRec graph i) ∧
      (yearRec graph i).rentalIncome = 12 * graph.monthlyRental) := by
  have hbrk : ∀ i, i < n →
      (calculateLoanData graph n).yearlyBreakdown[i]? = some (yearRec graph i) := by
    intro i hi
    rw [calculateLoanData_breakdown]
    simp only [List.getElem?_map]
    rw [List.getElem?_range hi]
    rfl
  constructor
  · intro hzero i hi
    refine ⟨hbrk i hi, ?_⟩
    show bal graph i + bal graph i * graph.interestRate - rent graph i
      = bal graph i - rent graph i
    rw [hzero]
    ring
  · intro hone i hi
    refine ⟨hbrk i hi, ?_⟩
    show rent graph i = 12 * graph.monthlyRental
    unfold rent
    rw [hone, one_pow, mul_one]

def gclaim8 : LoanGraph :=
  { id := "8", name := "Scenario 8", loanAmount := 1000, monthlyRental := 20
    interestRate := 0, rentalIncrease := 1, color := "rgb(54, 162, 235)" }

theorem claim8_witness :
    ((calculateLoanData gclaim8 2).yearlyBreakdown[0]? = some (yearRec gclaim8 0) ∧
      (yearRec gclaim8 0).loanAmountEnd
        = (yearRec gclaim8 0).loanAmountStart - (yearRec gclaim8 0).rentalIncome) ∧
    ((calculateLoanData gclaim8 2).yearlyBreakdown[1]? = some (yearRec gclaim8 1) ∧
      (yearRec gclaim8 1).rentalIncome = 12 * gclaim8.monthlyRental) :=
  ⟨(claim8_zero_interest_flat_rental gclaim8 2).1 rfl 0 (by decide),
   (claim8_zero_interest_flat_rental gclaim8 2).2 rfl 1 (by decide)⟩

/-- Claim C9: the simulation is deterministic and stateless: two calls with
identical scenario parameters and identical horizons produce identical
trajectories (the embedded function is pure, so equal inputs give equal
outputs by substitution). -/
theorem claim9_determinism (g1 g2 : LoanGraph) (n1 n2 : ℕ)
    (hg : g1 = g2) (hn : n1 = n2) :
    calculateLoanData g1 n1 = calculateLoanData g2 n2 := by
  rw [hg, hn]

def gclaim9 : LoanGraph :=
  { id := "9", name := "Scenario 9", loanAmount := 1600000, monthlyRental := 16000
    interestRate := 1/10, rentalIncrease := 53/50, color := "rgb(75, 192, 192)" }

theorem claim9_witness : calculateLoanData gclaim9 5 = calculateLoanData gclaim9 5 :=
  claim9_determinism gclaim9 gclaim9 5 5 rfl rfl

/-- Claim C10: noninterference of presentation fields: the output depends
only on loanAmount, monthlyRental, interestRate, rentalIncrease and the
horizon; two scenarios differing only in id, name or color produce the
same output. -/
theorem claim10_noninterference (g1 g2 : LoanGraph) (n : ℕ)
    (hL : g1.loanAmount = g2.loanAmount) (hm : g1.monthlyRental = g2.monthlyRental)
    (hi : g1.interestRate = g2.interestRate) (hr : g1.rentalIncrease = g2.rentalIncrease) :
    calculateLoanData g1 n = calculateLoanData g2 n := by
  have hrun : ∀ m, runLoop g1 m = runLoop g2 m := by
    intro m
    induction m with
    | zero => simp [runLoop, initState, hL, hm]
    | succ m ih => simp [runLoop, stepFn, ih, hi, hr]
  unfold calculateLoanData
  rw [hrun n]

def gclaim10a : LoanGraph :=
  { id := "10a", name := "Scenario A", loanAmount := 1600000, monthlyRental := 16000
    interestRate := 1/10, rentalIncrease := 53/50, color := "rgb(255, 205, 86)" }

def gclaim10b : LoanGraph :=
  { id := "10b", name := "Scenario B", loanAmount := 1600000, monthlyRental := 16000
    interestRate := 1/10, rentalIncrease := 53/50, color := "rgb(153, 102, 255)" }

theorem claim10_witness :
    calculateLoanData gclaim10a 4 = calculateLoanData gclaim10b 4 :=
  claim10_noninterference gclaim10a gclaim10b 4 rfl rfl rfl rfl
